import Mathlib

/-!
Verification development for demo_restaurant_rag.py.

The script has one piece of decision logic: inside main, each query is
dispatched over three branches by substring keyword matching on the
lower-cased query (lines 155-175), printing a hard-coded response block
per branch. The catalog is the module-level list sample_restaurants
(lines 105-130). The script pauses seven times on the builtin input()
(lines 60, 83, 98, 138, 179 twice, 197).

Modelling choices: a Python string is a sequence of Unicode code points,
embedded as List Nat; str.lower is embedded code-point-wise on the ASCII
range (the only range the keywords and claims exercise), identity
elsewhere; the Python float ratings 4.5, 4.8, 4.3 are embedded as the
exact rationals the literals denote (mkRat 45 10 and so on), which is
how the script displays them.
-/

/-- A record of the sample_restaurants list (lines 105-130), field for
field: name, cuisine, location, rating, price, description. -/
structure RestaurantRecord where
  name : String
  cuisine : String
  location : String
  rating : Rat
  price : String
  description : String
deriving DecidableEq, Repr

/-- First catalog entry (lines 106-113). -/
def joesPizza : RestaurantRecord :=
  { name := "Joe\x27s Pizza"
    cuisine := "Italian, Pizza"
    location := "New York, NY"
    rating := mkRat 45 10
    price := "$$"
    description := "Classic NYC slice joint since 1975. Famous for thin crust pizza." }

/-- Second catalog entry (lines 114-121). -/
def sushiNakazawa : RestaurantRecord :=
  { name := "Sushi Nakazawa"
    cuisine := "Japanese, Sushi"
    location := "New York, NY"
    rating := mkRat 48 10
    price := "$$$$"
    description := "Omakase experience from Jiro Dreams of Sushi apprentice." }

/-- Third catalog entry (lines 122-129). -/
def shakeShack : RestaurantRecord :=
  { name := "Shake Shack"
    cuisine := "American, Burgers"
    location := "New York, NY"
    rating := mkRat 43 10
    price := "$$"
    description := "Modern roadside burger stand with quality ingredients." }

/-- The fixed catalog sample_restaurants (lines 105-130). -/
def sample_restaurants : List RestaurantRecord := [joesPizza, sushiNakazawa, shakeShack]

/-- The code points of a Lean string literal, used to write concrete
Python strings in the embedding. -/
def codes (s : String) : List Nat := s.data.map Char.toNat

/-- Python str.lower on one code point: the ASCII uppercase range is
shifted down by 32, every other code point is left unchanged. -/
def lowerCode (n : Nat) : Nat := if 65 ≤ n ∧ n ≤ 90 then n + 32 else n

/-- Python query.lower() (lines 155 and 162): lower-casing code point by
code point. -/
def pyLower (s : List Nat) : List Nat := s.map lowerCode

/-- Whether the first list is an initial segment of the second. -/
def listStarts : List Nat → List Nat → Bool
  | [], _ => true
  | _ :: _, [] => false
  | a :: as, b :: bs => (a == b) && listStarts as bs

/-- The Python substring test needle in haystack: some suffix of the
haystack starts with the needle. -/
def pyContains (needle : List Nat) : List Nat → Bool
  | [] => listStarts needle []
  | c :: t => listStarts needle (c :: t) || pyContains needle t

/-- The first keyword of the dispatch (line 155). -/
def pizzaKW : List Nat := codes "pizza"

/-- The second keyword of the dispatch (line 162). -/
def japaneseKW : List Nat := codes "japanese"

/-- The dispatch of main (lines 155-175): if "pizza" occurs in the
lower-cased query the pizza branch runs, elif "japanese" occurs the
japanese branch runs, else the fallback branch runs. Each branch shows
exactly one catalog record, so the dispatch is read as selecting that
record. -/
def selectRestaurant (query : List Nat) : RestaurantRecord :=
  if pyContains pizzaKW (pyLower query) then joesPizza
  else if pyContains japaneseKW (pyLower query) then sushiNakazawa
  else shakeShack

/-- The hard-coded lines the pizza branch prints (lines 156-161). -/
def pizzaBranchLines : List String :=
  [ "🍕 Based on your query, I recommend:"
  , ""
  , "   Joe\x27s Pizza ⭐ 4.5"
  , "   📍 New York, NY | 💰 $$"
  , "   Classic NYC slice joint since 1975."
  , "   Famous for thin crust pizza." ]

/-- The hard-coded lines the japanese branch prints (lines 163-168). -/
def japaneseBranchLines : List String :=
  [ "🍣 For a special Japanese dining experience:"
  , ""
  , "   Sushi Nakazawa ⭐ 4.8"
  , "   📍 New York, NY | 💰 $$$$"
  , "   Omakase experience from Jiro Dreams"
  , "   of Sushi apprentice." ]

/-- The hard-coded lines the fallback branch prints (lines 170-175). -/
def fallbackBranchLines : List String :=
  [ "🍔 For a quick casual lunch:"
  , ""
  , "   Shake Shack ⭐ 4.3"
  , "   📍 New York, NY | 💰 $$"
  , "   Modern roadside burger stand with"
  , "   quality ingredients." ]

/-- The response block printed for a query: the dispatch (lines
155-175) again, now read as choosing the printed lines. -/
def branchLines (query : List Nat) : List String :=
  if pyContains pizzaKW (pyLower query) then pizzaBranchLines
  else if pyContains japaneseKW (pyLower query) then japaneseBranchLines
  else fallbackBranchLines

/-- The rating scaled to tenths, exact for the catalog values. -/
def ratingTenths (q : Rat) : Nat := q.num.toNat * 10 / q.den

/-- The spec rendering of a rating: one decimal place. -/
def fmtRating (q : Rat) : String :=
  toString (ratingTenths q / 10) ++ "." ++ toString (ratingTenths q % 10)

/-- Drops three leading spaces of a character list when present. -/
def dropIndent : List Char → List Char
  | ' ' :: ' ' :: ' ' :: rest => rest
  | l => l

/-- Removes the three-space display indent of a record line. -/
def stripIndent (s : String) : String :=
  String.mk (dropIndent s.data)

/-- Undoes display wrapping: the indent-stripped lines joined by single
spaces. -/
def unwrap (ls : List String) : String :=
  String.intercalate " " (ls.map stripIndent)

/-- The spec rendering relation between printed record lines and a
catalog record: first line the indented name with a star indicator and
the rating to one decimal place, second line the indented location and
price tier, remaining lines the description unmodified apart from
wrapping. -/
def rendersRecord (ls : List String) (r : RestaurantRecord) : Bool :=
  match ls with
  | l1 :: l2 :: rest =>
    decide (l1 = "   " ++ r.name ++ " ⭐ " ++ fmtRating r.rating) &&
    decide (l2 = "   📍 " ++ r.location ++ " | 💰 " ++ r.price) &&
    decide (unwrap rest = r.description) &&
    !rest.isEmpty
  | _ => false

/-- The program state the query loop (lines 149-179) can see: the
module-level catalog binding and the text printed so far. -/
structure DemoState where
  restaurants : List RestaurantRecord
  output : List String
deriving Repr

/-- One iteration of the query loop (lines 149-179) restricted to the
dispatch: it prints the chosen branch lines and assigns to no variable,
so the result record is paired with the state extended only in output. -/
def runQuery (st : DemoState) (query : List Nat) : RestaurantRecord × DemoState :=
  (selectRestaurant query,
   { restaurants := st.restaurants, output := st.output ++ branchLines query })

/-- The dispatch as run by the script, with the process environment
passed explicitly: no branch of lines 155-175 calls os.environ or
os.getenv (the os import on line 12 is never used), so the environment
argument does not occur in the body. -/
def selectWithEnv (_env : List (String × String)) (query : List Nat) : RestaurantRecord :=
  selectRestaurant query

/-- The builtin input() over an explicit stdin, modelled as the list of
lines not yet read: it returns the next line whatever its content, and
raises EOFError when stdin is exhausted. -/
def pyInput (stdin : List String) : Except String (String × List String) :=
  match stdin with
  | [] => Except.error "EOFError"
  | l :: rest => Except.ok (l, rest)

/-- n consecutive input() pauses threaded over stdin; a raised EOFError
propagates. -/
def runPauses : Nat → List String → Except String (List String)
  | 0, stdin => Except.ok stdin
  | n + 1, stdin =>
    match pyInput stdin with
    | Except.error e => Except.error e
    | Except.ok (_, rest) => runPauses n rest

/-- The number of input() pauses main executes: lines 60, 83, 98, 138,
line 179 for the first two of the three queries, and line 197. -/
def mainPauseCount : Nat := 7

/-- The blocking reads of one run of main, in order, over an explicit
stdin: ok with the unread rest of stdin on normal termination, error
when an uncaught EOFError aborts the run. -/
def runMainPauses (stdin : List String) : Except String (List String) :=
  runPauses mainPauseCount stdin

/-- Lower-casing a code point is idempotent: a shifted code point lands
outside the ASCII uppercase range. -/
theorem lowerCode_idem (n : Nat) : lowerCode (lowerCode n) = lowerCode n := by
  simp only [lowerCode]
  split_ifs <;> omega

/-- Lower-casing a code point list is idempotent. -/
theorem pyLower_idem (s : List Nat) : pyLower (pyLower s) = pyLower s := by
  induction s with
  | nil => rfl
  | cons a t ih =>
    simp only [pyLower, List.map_cons] at ih ⊢
    rw [lowerCode_idem, ih]

/-- When stdin holds at least n lines, n pauses all succeed and consume
exactly n lines, whatever the lines contain. -/
theorem runPauses_ok (n : Nat) (stdin : List String) (h : n ≤ stdin.length) :
    runPauses n stdin = Except.ok (stdin.drop n) := by
  induction n generalizing stdin with
  | zero => rfl
  | succ m ih =>
    cases stdin with
    | nil => simp at h
    | cons l rest =>
      have hstep : runPauses (m + 1) (l :: rest) = runPauses m rest := rfl
      rw [hstep]
      exact ih rest (by simp at h; omega)

/-- When stdin holds fewer than n lines, n pauses end in an uncaught
EOFError. -/
theorem runPauses_eof (n : Nat) (stdin : List String) (h : stdin.length < n) :
    runPauses n stdin = Except.error "EOFError" := by
  induction n generalizing stdin with
  | zero => omega
  | succ m ih =>
    cases stdin with
    | nil => rfl
    | cons l rest =>
      have hstep : runPauses (m + 1) (l :: rest) = runPauses m rest := rfl
      rw [hstep]
      exact ih rest (by simp at h; omega)

/-- Claim C1: every query whose lower-cased form contains the substring
pizza selects the record joesPizza, regardless of any other content of
the query, including when japanese also occurs: the pizza check is the
first branch and wins. -/
theorem pizza_always_wins (q : List Nat)
    (h : pyContains pizzaKW (pyLower q) = true) :
    selectRestaurant q = joesPizza := by
  simp [selectRestaurant, h]

/-- Claim C1 witness: a query containing both PIZZA and japanese
selects joesPizza. -/
theorem pizza_always_wins_witness :
    pyContains pizzaKW (pyLower (codes "I want PIZZA and japanese food")) = true ∧
    selectRestaurant (codes "I want PIZZA and japanese food") = joesPizza :=
  ⟨by decide, pizza_always_wins (codes "I want PIZZA and japanese food") (by decide)⟩

/-- Claim C2: every query whose lower-cased form lacks pizza but
contains japanese selects the record sushiNakazawa. -/
theorem japanese_when_no_pizza (q : List Nat)
    (h1 : pyContains pizzaKW (pyLower q) = false)
    (h2 : pyContains japaneseKW (pyLower q) = true) :
    selectRestaurant q = sushiNakazawa := by
  simp [selectRestaurant, h1, h2]

/-- Claim C2 witness: the sample japanese query of the script selects
sushiNakazawa. -/
theorem japanese_when_no_pizza_witness :
    selectRestaurant (codes "I want fancy Japanese food for a special occasion") = sushiNakazawa :=
  japanese_when_no_pizza (codes "I want fancy Japanese food for a special occasion")
    (by decide) (by decide)

/-- Claim C3: selection is total: every query, the empty one included,
yields a record of the catalog, the record shakeShack whenever neither
keyword occurs; the dispatch is a total function, with no failing
operation in any branch. -/
theorem selection_total :
    (∀ q, selectRestaurant q ∈ sample_restaurants) ∧
    (∀ q, pyContains pizzaKW (pyLower q) = false →
        pyContains japaneseKW (pyLower q) = false →
        selectRestaurant q = shakeShack) ∧
    selectRestaurant (codes "") = shakeShack := by
  refine ⟨fun q => ?_, fun q h1 h2 => by simp [selectRestaurant, h1, h2], by decide⟩
  unfold selectRestaurant
  split
  · decide
  · split
    · decide
    · decide

/-- Claim C3 witness: the sample fallback query of the script selects
shakeShack. -/
theorem selection_total_witness :
    selectRestaurant (codes "Quick casual lunch under $20?") = shakeShack :=
  selection_total.2.1 (codes "Quick casual lunch under $20?") (by decide) (by decide)

/-- Claim C4: selection is case-insensitive: every query selects the
same record as its lower-cased form, and PIZZA, Pizza and pIzZa select
the same record as pizza. -/
theorem selection_case_insensitive :
    (∀ q, selectRestaurant q = selectRestaurant (pyLower q)) ∧
    selectRestaurant (codes "PIZZA") = selectRestaurant (codes "pizza") ∧
    selectRestaurant (codes "Pizza") = selectRestaurant (codes "pizza") ∧
    selectRestaurant (codes "pIzZa") = selectRestaurant (codes "pizza") := by
  refine ⟨fun q => ?_, by decide, by decide, by decide⟩
  unfold selectRestaurant
  rw [pyLower_idem]

/-- Claim C5: on every query, the hard-coded response block of the
branch taken, stripped of its two header lines, renders the very record
the dispatch selects: indented name with star indicator and rating to
one decimal place, location with price tier, and the description
unmodified apart from wrapping. -/
theorem branch_renders_selected_record (q : List Nat) :
    rendersRecord ((branchLines q).drop 2) (selectRestaurant q) = true := by
  cases h1 : pyContains pizzaKW (pyLower q) <;>
    cases h2 : pyContains japaneseKW (pyLower q) <;>
    simp only [branchLines, selectRestaurant, h1, h2, if_true, if_false,
      Bool.false_eq_true, Bool.true_eq_false] <;>
    decide

/-- Claim C6: the catalog holds exactly three records, each well formed:
non-empty name unique in the set, rating within 0 and 5, price one of
the four tier tokens; and a query-loop step never changes the catalog
binding. -/
theorem catalog_invariants :
    sample_restaurants.length = 3 ∧
    (∀ r ∈ sample_restaurants,
      r.name ≠ "" ∧ 0 ≤ r.rating ∧ r.rating ≤ 5 ∧
      (r.price = "$" ∨ r.price = "$$" ∨ r.price = "$$$" ∨ r.price = "$$$$")) ∧
    List.Pairwise (fun a b => a.name ≠ b.name) sample_restaurants ∧
    (∀ st q, ((runQuery st q).2).restaurants = st.restaurants) :=
  ⟨rfl, by decide, by decide, fun st q => rfl⟩

/-- Claim C6 witness: the well-formedness clause applied to the first
catalog record. -/
theorem catalog_invariants_witness :
    joesPizza.name ≠ "" ∧ 0 ≤ joesPizza.rating ∧ joesPizza.rating ≤ 5 ∧
    (joesPizza.price = "$" ∨ joesPizza.price = "$$" ∨ joesPizza.price = "$$$" ∨
      joesPizza.price = "$$$$") :=
  catalog_invariants.2.1 joesPizza (by decide)

/-- Claim C7 counterexample: at an immediate end-of-input the first
pause does not continue: input() raises EOFError, which main never
catches, so the run aborts with a traceback and a non-zero exit. -/
theorem eof_aborts_run : runMainPauses [] = Except.error "EOFError" := rfl

/-- Claim C7 amended: every pause accepts any line content as continue,
and the program terminates normally exactly when stdin supplies at
least the seven lines the pauses read; at an earlier end-of-input the
run aborts with an uncaught EOFError and a non-zero exit. -/
theorem pauses_accept_lines :
    (∀ stdin : List String, mainPauseCount ≤ stdin.length →
      runMainPauses stdin = Except.ok (stdin.drop mainPauseCount)) ∧
    (∀ stdin : List String, stdin.length < mainPauseCount →
      runMainPauses stdin = Except.error "EOFError") :=
  ⟨fun stdin h => runPauses_ok mainPauseCount stdin h,
   fun stdin h => runPauses_eof mainPauseCount stdin h⟩

/-- Claim C7 amended witness: seven arbitrary lines, one of them empty,
all accepted; the run terminates normally. -/
theorem pauses_accept_lines_witness :
    runMainPauses ["anything", "at", "all", "even", "", "blank", "lines"] = Except.ok [] :=
  pauses_accept_lines.1 ["anything", "at", "all", "even", "", "blank", "lines"] (by decide)

/-- Claim C8: selection is deterministic and stateless: the record does
not depend on the state a loop step runs in, running the same query
again after a step returns the same record, and a step never mutates
the catalog binding. -/
theorem selection_deterministic_stateless :
    ∀ (st1 st2 : DemoState) (q : List Nat),
      (runQuery st1 q).1 = (runQuery st2 q).1 ∧
      (runQuery ((runQuery st1 q).2) q).1 = (runQuery st1 q).1 ∧
      ((runQuery st1 q).2).restaurants = st1.restaurants :=
  fun _ _ _ => ⟨rfl, rfl, rfl⟩

/-- Claim C9: selection does not depend on the process environment: any
two environments, with or without OPENAI_API_KEY or SERPAPI_KEY, give
the same record, and selection in an environment is plain selection. -/
theorem selection_env_independent :
    ∀ (env1 env2 : List (String × String)) (q : List Nat),
      selectWithEnv env1 q = selectWithEnv env2 q ∧
      selectWithEnv env1 q = selectRestaurant q :=
  fun _ _ _ => ⟨rfl, rfl⟩

/-- Claim C10: only the two keyword tests influence selection: two
queries agreeing on both tests select the same record, and queries
naming sushi, a burger or italian, terms of the other records, still
select the fallback record shakeShack. -/
theorem only_keywords_influence_selection :
    (∀ q1 q2 : List Nat,
      pyContains pizzaKW (pyLower q1) = pyContains pizzaKW (pyLower q2) →
      pyContains japaneseKW (pyLower q1) = pyContains japaneseKW (pyLower q2) →
      selectRestaurant q1 = selectRestaurant q2) ∧
    selectRestaurant (codes "best sushi in town") = shakeShack ∧
    selectRestaurant (codes "a good burger") = shakeShack ∧
    selectRestaurant (codes "italian food") = shakeShack := by
  refine ⟨fun q1 q2 h1 h2 => ?_, by decide, by decide, by decide⟩
  unfold selectRestaurant
  rw [h1, h2]

/-- Claim C10 witness: two keyword-free queries with different wording
select the same record. -/
theorem only_keywords_influence_selection_witness :
    selectRestaurant (codes "what about sushi") = selectRestaurant (codes "maybe a burger") :=
  only_keywords_influence_selection.1 (codes "what about sushi") (codes "maybe a burger")
    (by decide) (by decide)
